import Mathlib

set_option maxRecDepth 100000

/-!
Shallow embedding of the stable-swap client library
(`src/lib/client/src/stable-swap.ts`) together with models of its
collaborator modules.  The facade class `StableSwap` and its static
constructors `loadStableSwap` / `createStableSwap` are translated directly
from the TypeScript source.  The modules it imports (`./layout`,
`./instructions`, `./util/u64`, `./util/account`,
`./util/send-and-confirm-transaction`) and the external `@solana/web3.js`
primitives are not part of the given sources; they are modelled from the
specification and marked as such in their doc comments.
-/

/-- A public key: its 32-byte buffer, modelled as a list of byte values.
`new PublicKey(buffer)` and `pk.toBuffer()` are both the identity in this
model. -/
abbrev PubKey := List Nat

/-- An `Account` from web3.js as the client uses it: a keypair, of which
only the public key is observable here. -/
structure Account where
  publicKey : PubKey
deriving DecidableEq, Repr

/-- The failure taxonomy of the client (spec section 7).  The throw at
stable-swap.ts line 167, `new Error("Invalid token swap state")`, is the
spec's PoolNotInitializedError and carries only its message string. -/
inductive SwapError where
  | accountNotFound
  | malformedAccount
  | poolNotInitialized (msg : String)
  | valueOutOfRange
  | transportError (msg : String)
deriving DecidableEq, Repr

/-- Little-endian byte encoding of a natural number into `k` bytes. -/
def leBytes : Nat → Nat → List Nat
  | 0, _ => []
  | k + 1, n => (n % 256) :: leBytes k (n / 256)

/-- Little-endian byte decoding of a buffer into a natural number. -/
def leDecode : List Nat → Nat
  | [] => 0
  | b :: bs => b + 256 * leDecode bs

/-- Modelled from the spec: the missing `./util/u64` module's `Numberu64`,
an arbitrary-precision unsigned 64-bit value, "constructible from a native
integer or from an 8-byte little-endian buffer; serializable back to an
8-byte little-endian buffer". -/
structure Numberu64 where
  val : Nat
deriving DecidableEq, Repr

/-- Modelled from the spec: `Numberu64.fromBuffer`, reading an 8-byte
little-endian buffer. -/
def Numberu64.fromBuffer (b : List Nat) : Numberu64 :=
  ⟨leDecode b⟩

/-- Modelled from the spec: `Numberu64.toBuffer`, an 8-byte little-endian
serialization. -/
def Numberu64.toBuffer (v : Numberu64) : List Nat :=
  leBytes 8 v.val

/-- Modelled from the spec: the `new Numberu64(n)` constructor from a
native integer. -/
def Numberu64.ofInt (n : Int) : Numberu64 :=
  ⟨n.toNat⟩

/-- A TypeScript `number | Numberu64` argument. -/
inductive NumOrU64 where
  | num (n : Int)
  | u64 (v : Numberu64)
deriving DecidableEq, Repr

/-- Modelled from the spec: the encoder's normalization of a native-integer
amount, which "must reject negative values and values exceeding 2^64-1
with ValueOutOfRangeError"; in-range values are serialized to 8
little-endian bytes. -/
def checkU64 (n : Int) : Except SwapError (List Nat) :=
  if n < 0 ∨ (2 : Int) ^ 64 ≤ n then
    Except.error SwapError.valueOutOfRange
  else
    Except.ok (leBytes 8 n.toNat)

/-- Modelled from the spec: normalization of a `number | Numberu64`
encoder argument to its 8-byte little-endian buffer, rejecting values
outside `[0, 2^64 - 1]` with ValueOutOfRangeError. -/
def toU64Buffer : NumOrU64 → Except SwapError (List Nat)
  | NumOrU64.num n => checkU64 n
  | NumOrU64.u64 v =>
      if (2 : Nat) ^ 64 ≤ v.val then
        Except.error SwapError.valueOutOfRange
      else
        Except.ok (leBytes 8 v.val)

/-- One account reference of an instruction: address, is-signer flag,
is-writable flag. -/
structure AccountMeta where
  pubkey : PubKey
  isSigner : Bool
  isWritable : Bool
deriving DecidableEq, Repr

/-- One instruction: ordered account references, the id of the program
that interprets it, and the binary payload. -/
structure TransactionInstruction where
  keys : List AccountMeta
  programId : PubKey
  data : List Nat
deriving DecidableEq, Repr

/-- A transaction: its ordered instruction list (web3.js `Transaction`
with `.add`). -/
structure Transaction where
  instructions : List TransactionInstruction
deriving DecidableEq, Repr

/-- The external collaborators of the client, bundled as one environment:
the web3.js `Connection` (account fetch and rent query), the
`PublicKey.findProgramAddress` derivation primitive, and the repository's
`sendAndConfirmTransaction` utility (modelled from spec section 4.3 as a
function from label, transaction and signers to a signature or error). -/
structure Env where
  fetchAccount : PubKey → Option (List Nat)
  getMinimumBalanceForRentExemption : Nat → Nat
  sendAndConfirmTransaction : String → Transaction → List Account → Except SwapError String
  findProgramAddress : List PubKey → PubKey → PubKey

/-- Byte slice: `len` bytes of `data` starting at offset `off`. -/
def byteSlice (data : List Nat) (off len : Nat) : List Nat :=
  (data.drop off).take len

/-- Modelled from the spec: the fixed span of the missing `./layout`
module's `StableSwapLayout`: a one-byte init flag, six 32-byte public-key
fields, and three 8-byte little-endian unsigned integers. -/
def StableSwapLayout.span : Nat := 217

/-- The decoded on-chain record, with the fields the client reads: raw
32-byte buffers for the public keys and raw 8-byte buffers for the
numeric parameters, as the layout decoder yields them. -/
structure StableSwapData where
  isInitialized : Bool
  tokenPool : List Nat
  tokenAccountA : List Nat
  tokenAccountB : List Nat
  mintA : List Nat
  mintB : List Nat
  tokenProgramId : List Nat
  ampFactor : List Nat
  feeNumerator : List Nat
  feeDenominator : List Nat
deriving DecidableEq, Repr

/-- Field extraction at the fixed offsets of the layout, given the already
recognized init flag. -/
def StableSwapLayout.readFields (data : List Nat) (flag : Bool) : StableSwapData :=
  { isInitialized := flag
    tokenPool := byteSlice data 1 32
    tokenAccountA := byteSlice data 33 32
    tokenAccountB := byteSlice data 65 32
    mintA := byteSlice data 97 32
    mintB := byteSlice data 129 32
    tokenProgramId := byteSlice data 161 32
    ampFactor := byteSlice data 193 8
    feeNumerator := byteSlice data 201 8
    feeDenominator := byteSlice data 209 8 }

/-- Modelled from the spec: `StableSwapLayout.decode`, which "fails with
MalformedAccountError if length differs from the fixed span or if the
initialization flag byte is not a recognized boolean encoding"; failure is
`none` here and the caller maps it to the error. -/
def StableSwapLayout.decode (data : List Nat) : Option StableSwapData :=
  if data.length = StableSwapLayout.span then
    match data.head? with
    | some 0 => some (StableSwapLayout.readFields data false)
    | some 1 => some (StableSwapLayout.readFields data true)
    | _ => none
  else none

/-- Modelled from the spec: the missing `./util/account` module's
`loadAccount`, which fetches the raw account bytes from the transport
(`fetchAccount(address) -> bytes | NotFound`). -/
def loadAccount (env : Env) (address : PubKey) (_programId : PubKey) :
    Except SwapError (List Nat) :=
  match env.fetchAccount address with
  | some data => Except.ok data
  | none => Except.error SwapError.accountNotFound

/-- Modelled from the spec: the well-known token-program id constant used
by the missing `./instructions` module for the initialization
instruction's token-program reference. -/
def TOKEN_PROGRAM_ID : PubKey := List.replicate 32 6

/-- Modelled from the spec (section 4.2): the missing `./instructions`
module's builder for the initialization instruction.  Tag 0; payload =
nonce (1 byte) + three 8-byte unsigned integers; accounts =
[poolAccount(write), authority, tokenAccountA, tokenAccountB,
poolTokenMint(write), destinationPoolTokenAccount(write), token-program
reference] in that exact order. -/
def createInitSwapInstruction (tokenSwapAccount : Account)
    (authority tokenAccountA tokenAccountB tokenPool tokenAccountPool
      swapProgramId : PubKey)
    (nonce : Nat) (ampFactor feeNumerator feeDenominator : Int) :
    Except SwapError TransactionInstruction := do
  let a ← checkU64 ampFactor
  let f ← checkU64 feeNumerator
  let d ← checkU64 feeDenominator
  Except.ok
    { keys :=
        [⟨tokenSwapAccount.publicKey, false, true⟩,
         ⟨authority, false, false⟩,
         ⟨tokenAccountA, false, false⟩,
         ⟨tokenAccountB, false, false⟩,
         ⟨tokenPool, false, true⟩,
         ⟨tokenAccountPool, false, true⟩,
         ⟨TOKEN_PROGRAM_ID, false, false⟩]
      programId := swapProgramId
      data := 0 :: (nonce % 256) :: (a ++ f ++ d) }

/-- Modelled from the spec (section 4.2): the missing `./instructions`
module's builder for the swap instruction.  Tag 1; payload = two 8-byte
unsigned integers (amountIn, minimumAmountOut); accounts in the fixed
order [pool, authority, userSource(write), poolSource(write),
poolDestination(write), userDestination(write), tokenProgramId]. -/
def swapInstruction (tokenSwap authority userSource poolSource
      poolDestination userDestination swapProgramId tokenProgramId : PubKey)
    (amountIn minimumAmountOut : NumOrU64) :
    Except SwapError TransactionInstruction := do
  let a ← toU64Buffer amountIn
  let m ← toU64Buffer minimumAmountOut
  Except.ok
    { keys :=
        [⟨tokenSwap, false, false⟩,
         ⟨authority, false, false⟩,
         ⟨userSource, false, true⟩,
         ⟨poolSource, false, true⟩,
         ⟨poolDestination, false, true⟩,
         ⟨userDestination, false, true⟩,
         ⟨tokenProgramId, false, false⟩]
      programId := swapProgramId
      data := 1 :: (a ++ m) }

/-- Modelled from the spec (section 4.2): the missing `./instructions`
module's builder for the deposit instruction.  Tag 2; payload = three
8-byte unsigned integers; accounts = [pool, authority, userAccountA(write),
userAccountB(write), poolTokenAccountA(write), poolTokenAccountB(write),
poolTokenMint(write), destinationPoolAccount(write), tokenProgramId]. -/
def depositInstruction (tokenSwap authority userAccountA userAccountB
      poolAccountA poolAccountB tokenPool destinationPoolAccount
      swapProgramId tokenProgramId : PubKey)
    (tokenAmountA tokenAmountB minimumPoolTokenAmount : NumOrU64) :
    Except SwapError TransactionInstruction := do
  let a ← toU64Buffer tokenAmountA
  let b ← toU64Buffer tokenAmountB
  let p ← toU64Buffer minimumPoolTokenAmount
  Except.ok
    { keys :=
        [⟨tokenSwap, false, false⟩,
         ⟨authority, false, false⟩,
         ⟨userAccountA, false, true⟩,
         ⟨userAccountB, false, true⟩,
         ⟨poolAccountA, false, true⟩,
         ⟨poolAccountB, false, true⟩,
         ⟨tokenPool, false, true⟩,
         ⟨destinationPoolAccount, false, true⟩,
         ⟨tokenProgramId, false, false⟩]
      programId := swapProgramId
      data := 2 :: (a ++ b ++ p) }

/-- Modelled from the spec (section 4.2): the missing `./instructions`
module's builder for the withdraw instruction.  Tag 3; payload = three
8-byte unsigned integers; accounts = [pool, authority,
poolTokenMint(write), sourcePoolAccount(write), poolTokenAccountA(write),
poolTokenAccountB(write), userAccountA(write), userAccountB(write),
tokenProgramId]. -/
def withdrawInstruction (tokenSwap authority tokenPool sourcePoolAccount
      poolAccountA poolAccountB userAccountA userAccountB
      swapProgramId tokenProgramId : PubKey)
    (poolTokenAmount minimumTokenA minimumTokenB : NumOrU64) :
    Except SwapError TransactionInstruction := do
  let p ← toU64Buffer poolTokenAmount
  let a ← toU64Buffer minimumTokenA
  let b ← toU64Buffer minimumTokenB
  Except.ok
    { keys :=
        [⟨tokenSwap, false, false⟩,
         ⟨authority, false, false⟩,
         ⟨tokenPool, false, true⟩,
         ⟨sourcePoolAccount, false, true⟩,
         ⟨poolAccountA, false, true⟩,
         ⟨poolAccountB, false, true⟩,
         ⟨userAccountA, false, true⟩,
         ⟨userAccountB, false, true⟩,
         ⟨tokenProgramId, false, false⟩]
      programId := swapProgramId
      data := 3 :: (p ++ a ++ b) }

/-- Modelled from the external web3.js `SystemProgram.createAccount`
builder: allocation of `space` bytes funded with `lamports`, owned by
`programId`; signers are the funder and the new account. -/
def SystemProgram.createAccount (fromPubkey newAccountPubkey : PubKey)
    (lamports space : Nat) (programId : PubKey) : TransactionInstruction :=
  { keys :=
      [⟨fromPubkey, true, true⟩,
       ⟨newAccountPubkey, true, true⟩]
    programId := List.replicate 32 0
    data := leBytes 4 0 ++ leBytes 8 lamports ++ leBytes 8 space ++ programId }

/-- The `StableSwap` client class: its stored fields, exactly those of the
TypeScript class (the connection is passed to the methods explicitly
rather than stored, since it is a bundle of functions). -/
structure StableSwap where
  stableSwap : PubKey
  swapProgramId : PubKey
  tokenProgramId : PubKey
  poolToken : PubKey
  authority : PubKey
  tokenAccountA : PubKey
  tokenAccountB : PubKey
  mintA : PubKey
  mintB : PubKey
  ampFactor : Numberu64
  feeNumerator : Numberu64
  feeDenominator : Numberu64
  payer : Account
deriving DecidableEq, Repr

/-- `StableSwap.getMinBalanceRentForExemptStableSwap`: the rent-exemption
minimum for the layout's span, via the connection. -/
def getMinBalanceRentForExemptStableSwap (env : Env) : Nat :=
  env.getMinimumBalanceForRentExemption StableSwapLayout.span

/-- `StableSwap.loadStableSwap` (stable-swap.ts lines 158-201): fetch the
account bytes, decode them, fail when the record is uninitialized, derive
the authority from `[address]` and the program id, and build the client
from the decoded fields. -/
def loadStableSwap (env : Env) (address : PubKey) (programId : PubKey)
    (payer : Account) : Except SwapError StableSwap := do
  let data ← loadAccount env address programId
  let stableSwapData ←
    match StableSwapLayout.decode data with
    | some d => Except.ok d
    | none => Except.error SwapError.malformedAccount
  if !stableSwapData.isInitialized then
    Except.error (SwapError.poolNotInitialized "Invalid token swap state")
  else
    let authority := env.findProgramAddress [address] programId
    Except.ok
      { stableSwap := address
        swapProgramId := programId
        tokenProgramId := stableSwapData.tokenProgramId
        poolToken := stableSwapData.tokenPool
        authority := authority
        tokenAccountA := stableSwapData.tokenAccountA
        tokenAccountB := stableSwapData.tokenAccountB
        mintA := stableSwapData.mintA
        mintB := stableSwapData.mintB
        ampFactor := Numberu64.fromBuffer stableSwapData.ampFactor
        feeNumerator := Numberu64.fromBuffer stableSwapData.feeNumerator
        feeDenominator := Numberu64.fromBuffer stableSwapData.feeDenominator
        payer := payer }

/-- `StableSwap.createStableSwap` (stable-swap.ts lines 222-296): build the
client from the arguments, allocate the pool account (size = layout span,
rent-exempt funding, owner = swap program id), append the initialization
instruction, submit the one transaction signed by the payer and the new
account, and return the client. -/
def createStableSwap (env : Env) (payer stableSwapAccount : Account)
    (authority tokenAccountA tokenAccountB poolToken mintA mintB
      tokenAccountPool swapProgramId tokenProgramId : PubKey)
    (nonce : Nat) (ampFactor feeNumerator feeDenominator : Int) :
    Except SwapError StableSwap := do
  let stableSwap : StableSwap :=
    { stableSwap := stableSwapAccount.publicKey
      swapProgramId := swapProgramId
      tokenProgramId := tokenProgramId
      poolToken := poolToken
      authority := authority
      tokenAccountA := tokenAccountA
      tokenAccountB := tokenAccountB
      mintA := mintA
      mintB := mintB
      ampFactor := Numberu64.ofInt ampFactor
      feeNumerator := Numberu64.ofInt feeNumerator
      feeDenominator := Numberu64.ofInt feeDenominator
      payer := payer }
  let balanceNeeded := getMinBalanceRentForExemptStableSwap env
  let txCreate : Transaction :=
    ⟨[SystemProgram.createAccount payer.publicKey stableSwapAccount.publicKey
        balanceNeeded StableSwapLayout.span swapProgramId]⟩
  let ins ← createInitSwapInstruction stableSwapAccount authority
    tokenAccountA tokenAccountB poolToken tokenAccountPool swapProgramId
    nonce ampFactor feeNumerator feeDenominator
  let tx : Transaction := ⟨txCreate.instructions ++ [ins]⟩
  let _ ← env.sendAndConfirmTransaction "createAccount and InitializeSwap"
    tx [payer, stableSwapAccount]
  Except.ok stableSwap

/-- `StableSwap.swap` (stable-swap.ts lines 307-334), with the client state
passed explicitly: the result of the submission and the client as it
stands after the call. -/
def StableSwap.swap (self : StableSwap) (env : Env)
    (userSource poolSource poolDestination userDestination : PubKey)
    (amountIn minimumAmountOut : NumOrU64) :
    Except SwapError String × StableSwap :=
  ((do
      let ins ← swapInstruction self.stableSwap self.authority userSource
        poolSource poolDestination userDestination self.swapProgramId
        self.tokenProgramId amountIn minimumAmountOut
      env.sendAndConfirmTransaction "swap" ⟨[ins]⟩ [self.payer]),
   self)

/-- `StableSwap.deposit` (stable-swap.ts lines 345-375), with the client
state passed explicitly. -/
def StableSwap.deposit (self : StableSwap) (env : Env)
    (userAccountA userAccountB poolAccount : PubKey)
    (tokenAmountA tokenAmountB minimumPoolTokenAmount : NumOrU64) :
    Except SwapError String × StableSwap :=
  ((do
      let ins ← depositInstruction self.stableSwap self.authority
        userAccountA userAccountB self.tokenAccountA self.tokenAccountB
        self.poolToken poolAccount self.swapProgramId self.tokenProgramId
        tokenAmountA tokenAmountB minimumPoolTokenAmount
      env.sendAndConfirmTransaction "deposit" ⟨[ins]⟩ [self.payer]),
   self)

/-- `StableSwap.withdraw` (stable-swap.ts lines 386-416), with the client
state passed explicitly. -/
def StableSwap.withdraw (self : StableSwap) (env : Env)
    (userAccountA userAccountB poolAccount : PubKey)
    (poolTokenAmount minimumTokenA minimumTokenB : NumOrU64) :
    Except SwapError String × StableSwap :=
  ((do
      let ins ← withdrawInstruction self.stableSwap self.authority
        self.poolToken poolAccount self.tokenAccountA self.tokenAccountB
        userAccountA userAccountB self.swapProgramId self.tokenProgramId
        poolTokenAmount minimumTokenA minimumTokenB
      env.sendAndConfirmTransaction "withdraw" ⟨[ins]⟩ [self.payer]),
   self)

/-! ## Concrete fixtures used by witnesses and counterexamples -/

/-- A test public key whose 32 bytes all carry the value `b`. -/
def testPk (b : Nat) : PubKey := List.replicate 32 b

/-- A 217-byte account blob whose init flag is `1` (initialized) and whose
remaining bytes are zero. -/
def initBlob : List Nat := 1 :: List.replicate 216 0

/-- A 217-byte account blob whose init flag is `0` (uninitialized). -/
def uninitBlob : List Nat := 0 :: List.replicate 216 0

/-- An environment whose transport serves `initBlob` for every address. -/
def envLoad : Env :=
  { fetchAccount := fun _ => some initBlob
    getMinimumBalanceForRentExemption := fun _ => 42
    sendAndConfirmTransaction := fun _ _ _ => Except.ok "sig"
    findProgramAddress := fun _ _ => testPk 9 }

/-- An environment whose transport serves `uninitBlob` for every address. -/
def envUninit : Env :=
  { fetchAccount := fun _ => some uninitBlob
    getMinimumBalanceForRentExemption := fun _ => 42
    sendAndConfirmTransaction := fun _ _ _ => Except.ok "sig"
    findProgramAddress := fun _ _ => testPk 9 }

/-- An environment for creation runs: sends succeed, rent is 100 lamports,
and the derivation primitive returns `testPk 9` for every seed. -/
def envCreate : Env :=
  { fetchAccount := fun _ => none
    getMinimumBalanceForRentExemption := fun _ => 100
    sendAndConfirmTransaction := fun _ _ _ => Except.ok "sig"
    findProgramAddress := fun _ _ => testPk 9 }

/-- The client that loading `initBlob` at address `testPk 1` under
`envLoad` yields. -/
def loadedClient : StableSwap :=
  { stableSwap := testPk 1
    swapProgramId := testPk 2
    tokenProgramId := List.replicate 32 0
    poolToken := List.replicate 32 0
    authority := testPk 9
    tokenAccountA := List.replicate 32 0
    tokenAccountB := List.replicate 32 0
    mintA := List.replicate 32 0
    mintB := List.replicate 32 0
    ampFactor := ⟨0⟩
    feeNumerator := ⟨0⟩
    feeDenominator := ⟨0⟩
    payer := ⟨testPk 3⟩ }

/-! ## Helper lemmas -/

/-- Bind on an ok value reduces. -/
theorem exceptBindOk {ε α β : Type} (a : α) (f : α → Except ε β) :
    (Except.ok a : Except ε α) >>= f = f a := rfl

/-- Bind on an error value reduces. -/
theorem exceptBindErr {ε α β : Type} (e : ε) (f : α → Except ε β) :
    (Except.error e : Except ε α) >>= f = Except.error e := rfl

/-- Case-splitting form of `loadStableSwap`. -/
theorem loadStableSwap_eq (env : Env) (address programId : PubKey)
    (payer : Account) :
    loadStableSwap env address programId payer =
      match env.fetchAccount address with
      | none => Except.error SwapError.accountNotFound
      | some data =>
        match StableSwapLayout.decode data with
        | none => Except.error SwapError.malformedAccount
        | some d =>
          if d.isInitialized then
            Except.ok
              { stableSwap := address
                swapProgramId := programId
                tokenProgramId := d.tokenProgramId
                poolToken := d.tokenPool
                authority := env.findProgramAddress [address] programId
                tokenAccountA := d.tokenAccountA
                tokenAccountB := d.tokenAccountB
                mintA := d.mintA
                mintB := d.mintB
                ampFactor := Numberu64.fromBuffer d.ampFactor
                feeNumerator := Numberu64.fromBuffer d.feeNumerator
                feeDenominator := Numberu64.fromBuffer d.feeDenominator
                payer := payer }
          else
            Except.error (SwapError.poolNotInitialized "Invalid token swap state") := by
  unfold loadStableSwap loadAccount
  cases env.fetchAccount address with
  | none => rfl
  | some data =>
    simp only [exceptBindOk]
    cases StableSwapLayout.decode data with
    | none => rfl
    | some d =>
      simp only [exceptBindOk]
      cases hi : d.isInitialized <;> simp [hi]

/-- Every `toU64Buffer` result is an ok buffer or the range error. -/
theorem toU64Buffer_cases (x : NumOrU64) :
    (∃ b, toU64Buffer x = Except.ok b) ∨
      toU64Buffer x = Except.error SwapError.valueOutOfRange := by
  cases x with
  | num n =>
    by_cases h : n < 0 ∨ (2 : Int) ^ 64 ≤ n
    · refine Or.inr ?_
      show checkU64 n = _
      unfold checkU64
      exact if_pos h
    · refine Or.inl ⟨leBytes 8 n.toNat, ?_⟩
      show checkU64 n = _
      unfold checkU64
      exact if_neg h
  | u64 v =>
    by_cases h : (2 : Nat) ^ 64 ≤ v.val
    · refine Or.inr ?_
      show (if (2 : Nat) ^ 64 ≤ v.val then _ else _) = _
      exact if_pos h
    · refine Or.inl ⟨leBytes 8 v.val, ?_⟩
      show (if (2 : Nat) ^ 64 ≤ v.val then _ else _) = _
      exact if_neg h

/-! ## Claims -/

/-- C2: for every invocation of each of the four operations, the emitted
instruction's account-reference list has exactly the length, element order,
and per-element writability flags of spec section 4.2; in particular every
swap emits exactly 7 references in the order [pool, authority,
userSource(write), poolSource(write), poolDestination(write),
userDestination(write), tokenProgramId]. -/
theorem c2_account_reference_lists :
    (∀ (ts auth us ps pd ud spid tpid : PubKey) (aIn mOut : NumOrU64)
        (bIn bOut : List Nat),
        toU64Buffer aIn = Except.ok bIn →
        toU64Buffer mOut = Except.ok bOut →
        swapInstruction ts auth us ps pd ud spid tpid aIn mOut =
          Except.ok
            { keys :=
                [⟨ts, false, false⟩, ⟨auth, false, false⟩, ⟨us, false, true⟩,
                 ⟨ps, false, true⟩, ⟨pd, false, true⟩, ⟨ud, false, true⟩,
                 ⟨tpid, false, false⟩]
              programId := spid
              data := 1 :: (bIn ++ bOut) })
    ∧ (∀ (acc : Account) (auth ta tb tp tap spid : PubKey) (nonce : Nat)
        (af fn fd : Int) (ba bf bd : List Nat),
        checkU64 af = Except.ok ba →
        checkU64 fn = Except.ok bf →
        checkU64 fd = Except.ok bd →
        createInitSwapInstruction acc auth ta tb tp tap spid nonce af fn fd =
          Except.ok
            { keys :=
                [⟨acc.publicKey, false, true⟩, ⟨auth, false, false⟩,
                 ⟨ta, false, false⟩, ⟨tb, false, false⟩, ⟨tp, false, true⟩,
                 ⟨tap, false, true⟩, ⟨TOKEN_PROGRAM_ID, false, false⟩]
              programId := spid
              data := 0 :: (nonce % 256) :: (ba ++ bf ++ bd) })
    ∧ (∀ (ts auth ua ub pa pb tp dp spid tpid : PubKey)
        (xa xb xp : NumOrU64) (ba bb bp : List Nat),
        toU64Buffer xa = Except.ok ba →
        toU64Buffer xb = Except.ok bb →
        toU64Buffer xp = Except.ok bp →
        depositInstruction ts auth ua ub pa pb tp dp spid tpid xa xb xp =
          Except.ok
            { keys :=
                [⟨ts, false, false⟩, ⟨auth, false, false⟩, ⟨ua, false, true⟩,
                 ⟨ub, false, true⟩, ⟨pa, false, true⟩, ⟨pb, false, true⟩,
                 ⟨tp, false, true⟩, ⟨dp, false, true⟩, ⟨tpid, false, false⟩]
              programId := spid
              data := 2 :: (ba ++ bb ++ bp) })
    ∧ (∀ (ts auth tp spa pa pb ua ub spid tpid : PubKey)
        (xp xa xb : NumOrU64) (bp ba bb : List Nat),
        toU64Buffer xp = Except.ok bp →
        toU64Buffer xa = Except.ok ba →
        toU64Buffer xb = Except.ok bb →
        withdrawInstruction ts auth tp spa pa pb ua ub spid tpid xp xa xb =
          Except.ok
            { keys :=
                [⟨ts, false, false⟩, ⟨auth, false, false⟩, ⟨tp, false, true⟩,
                 ⟨spa, false, true⟩, ⟨pa, false, true⟩, ⟨pb, false, true⟩,
                 ⟨ua, false, true⟩, ⟨ub, false, true⟩, ⟨tpid, false, false⟩]
              programId := spid
              data := 3 :: (bp ++ ba ++ bb) }) := by
  refine ⟨?_, ?_, ?_, ?_⟩
  · intro ts auth us ps pd ud spid tpid aIn mOut bIn bOut h1 h2
    simp only [swapInstruction, h1, h2, exceptBindOk]
  · intro acc auth ta tb tp tap spid nonce af fn fd ba bf bd h1 h2 h3
    simp only [createInitSwapInstruction, h1, h2, h3, exceptBindOk]
  · intro ts auth ua ub pa pb tp dp spid tpid xa xb xp ba bb bp h1 h2 h3
    simp only [depositInstruction, h1, h2, h3, exceptBindOk]
  · intro ts auth tp spa pa pb ua ub spid tpid xp xa xb bp ba bb h1 h2 h3
    simp only [withdrawInstruction, h1, h2, h3, exceptBindOk]

/-- Witness for C2: the four builders evaluated at concrete inputs. -/
theorem c2_witness :
    swapInstruction (testPk 1) (testPk 2) (testPk 3) (testPk 4) (testPk 5)
        (testPk 6) (testPk 7) (testPk 8) (NumOrU64.num 5) (NumOrU64.num 6) =
      Except.ok
        { keys :=
            [⟨testPk 1, false, false⟩, ⟨testPk 2, false, false⟩,
             ⟨testPk 3, false, true⟩, ⟨testPk 4, false, true⟩,
             ⟨testPk 5, false, true⟩, ⟨testPk 6, false, true⟩,
             ⟨testPk 8, false, false⟩]
          programId := testPk 7
          data := 1 :: (leBytes 8 5 ++ leBytes 8 6) }
    ∧ createInitSwapInstruction ⟨testPk 1⟩ (testPk 2) (testPk 3) (testPk 4)
        (testPk 5) (testPk 6) (testPk 7) 3 1 1 4 =
      Except.ok
        { keys :=
            [⟨testPk 1, false, true⟩, ⟨testPk 2, false, false⟩,
             ⟨testPk 3, false, false⟩, ⟨testPk 4, false, false⟩,
             ⟨testPk 5, false, true⟩, ⟨testPk 6, false, true⟩,
             ⟨TOKEN_PROGRAM_ID, false, false⟩]
          programId := testPk 7
          data := 0 :: 3 :: (leBytes 8 1 ++ leBytes 8 1 ++ leBytes 8 4) }
    ∧ depositInstruction (testPk 1) (testPk 2) (testPk 3) (testPk 4)
        (testPk 5) (testPk 6) (testPk 7) (testPk 8) (testPk 9) (testPk 10)
        (NumOrU64.num 5) (NumOrU64.num 6) (NumOrU64.num 7) =
      Except.ok
        { keys :=
            [⟨testPk 1, false, false⟩, ⟨testPk 2, false, false⟩,
             ⟨testPk 3, false, true⟩, ⟨testPk 4, false, true⟩,
             ⟨testPk 5, false, true⟩, ⟨testPk 6, false, true⟩,
             ⟨testPk 7, false, true⟩, ⟨testPk 8, false, true⟩,
             ⟨testPk 10, false, false⟩]
          programId := testPk 9
          data := 2 :: (leBytes 8 5 ++ leBytes 8 6 ++ leBytes 8 7) }
    ∧ withdrawInstruction (testPk 1) (testPk 2) (testPk 3) (testPk 4)
        (testPk 5) (testPk 6) (testPk 7) (testPk 8) (testPk 9) (testPk 10)
        (NumOrU64.num 5) (NumOrU64.num 6) (NumOrU64.num 7) =
      Except.ok
        { keys :=
            [⟨testPk 1, false, false⟩, ⟨testPk 2, false, false⟩,
             ⟨testPk 3, false, true⟩, ⟨testPk 4, false, true⟩,
             ⟨testPk 5, false, true⟩, ⟨testPk 6, false, true⟩,
             ⟨testPk 7, false, true⟩, ⟨testPk 8, false, true⟩,
             ⟨testPk 10, false, false⟩]
          programId := testPk 9
          data := 3 :: (leBytes 8 5 ++ leBytes 8 6 ++ leBytes 8 7) } :=
  ⟨c2_account_reference_lists.1 (testPk 1) (testPk 2) (testPk 3) (testPk 4)
      (testPk 5) (testPk 6) (testPk 7) (testPk 8) (NumOrU64.num 5)
      (NumOrU64.num 6) (leBytes 8 5) (leBytes 8 6) rfl rfl,
   c2_account_reference_lists.2.1 ⟨testPk 1⟩ (testPk 2) (testPk 3) (testPk 4)
      (testPk 5) (testPk 6) (testPk 7) 3 1 1 4 (leBytes 8 1) (leBytes 8 1)
      (leBytes 8 4) rfl rfl rfl,
   c2_account_reference_lists.2.2.1 (testPk 1) (testPk 2) (testPk 3)
      (testPk 4) (testPk 5) (testPk 6) (testPk 7) (testPk 8) (testPk 9)
      (testPk 10) (NumOrU64.num 5) (NumOrU64.num 6) (NumOrU64.num 7)
      (leBytes 8 5) (leBytes 8 6) (leBytes 8 7) rfl rfl rfl,
   c2_account_reference_lists.2.2.2 (testPk 1) (testPk 2) (testPk 3)
      (testPk 4) (testPk 5) (testPk 6) (testPk 7) (testPk 8) (testPk 9)
      (testPk 10) (NumOrU64.num 5) (NumOrU64.num 6) (NumOrU64.num 7)
      (leBytes 8 5) (leBytes 8 6) (leBytes 8 7) rfl rfl rfl⟩

/-- C3: encoding the swap operation with amountIn = 1000 and
minimumAmountOut = 990 yields exactly a 17-byte payload: the tag byte 1,
the 8-byte little-endian encoding of 1000, then the 8-byte little-endian
encoding of 990. -/
theorem c3_swap_payload_bytes :
    (swapInstruction (testPk 1) (testPk 2) (testPk 3) (testPk 4) (testPk 5)
          (testPk 6) (testPk 7) (testPk 8) (NumOrU64.num 1000)
          (NumOrU64.num 990)).map (fun i => i.data) =
      Except.ok [1, 232, 3, 0, 0, 0, 0, 0, 0, 222, 3, 0, 0, 0, 0, 0, 0]
    ∧ ([1, 232, 3, 0, 0, 0, 0, 0, 0, 222, 3, 0, 0, 0, 0, 0, 0] : List Nat).length = 17
    ∧ leBytes 8 1000 = [232, 3, 0, 0, 0, 0, 0, 0]
    ∧ leBytes 8 990 = [222, 3, 0, 0, 0, 0, 0, 0] := by
  refine ⟨?_, rfl, by decide, by decide⟩
  rfl

/-- C8: the swap, deposit and withdraw methods leave every field of the
client unchanged, whatever the submission outcome: the cached descriptor
is never refreshed or mutated by these operations. -/
theorem c8_frame_methods (self : StableSwap) (env : Env)
    (us ps pd ud ua ub pa : PubKey) (a b x y z : NumOrU64) :
    (StableSwap.swap self env us ps pd ud a b).2 = self
    ∧ (StableSwap.deposit self env ua ub pa x y z).2 = self
    ∧ (StableSwap.withdraw self env ua ub pa x y z).2 = self :=
  ⟨rfl, rfl, rfl⟩

/-- Bind that discards its value and returns a constant ok result. -/
theorem exceptBindConst {ε α β : Type} (x : Except ε α) (b c : β)
    (h : (x >>= fun _ => Except.ok b) = Except.ok c) : b = c := by
  cases x with
  | error e => exact absurd h (by simp [exceptBindErr])
  | ok a =>
    rw [exceptBindOk] at h
    exact Except.ok.inj h

/-- Counterexample to C1: under an environment whose derivation primitive
yields `testPk 9` for every seed, `createStableSwap` called with the
unrelated authority `testPk 3` returns a client whose authority is
`testPk 3`, not the derivation of (pool account address, program id), and
nothing is rejected. -/
theorem c1_counterexample :
    (createStableSwap envCreate ⟨testPk 1⟩ ⟨testPk 2⟩ (testPk 3) (testPk 4)
          (testPk 5) (testPk 6) (testPk 7) (testPk 8) (testPk 10) (testPk 11)
          (testPk 12) 0 1 1 4).map (fun c => c.authority) =
      Except.ok (testPk 3)
    ∧ testPk 3 ≠ envCreate.findProgramAddress [testPk 2] (testPk 11) :=
  ⟨rfl, by decide⟩

/-- C1 amended: every client returned by `loadStableSwap` has its
authority equal to the deterministic derivation of (pool account address,
program id); `createStableSwap`, however, stores the caller-supplied
authority without any check, so its clients carry whatever authority the
caller passed. -/
theorem c1_authority_derivation :
    (∀ (env : Env) (address programId : PubKey) (payer : Account)
        (c : StableSwap),
        loadStableSwap env address programId payer = Except.ok c →
        c.authority = env.findProgramAddress [address] programId)
    ∧ (∀ (env : Env) (payer acc : Account)
        (auth ta tb pt ma mb tap spid tpid : PubKey) (nonce : Nat)
        (af fn fd : Int) (c : StableSwap),
        createStableSwap env payer acc auth ta tb pt ma mb tap spid tpid
            nonce af fn fd = Except.ok c →
        c.authority = auth) := by
  constructor
  · intro env address programId payer c h
    rw [loadStableSwap_eq] at h
    cases hf : env.fetchAccount address with
    | none => rw [hf] at h; exact absurd h (by simp)
    | some data =>
      rw [hf] at h
      cases hd : StableSwapLayout.decode data with
      | none => simp [hd] at h
      | some d =>
        simp only [hd] at h
        cases hi : d.isInitialized with
        | false => simp [hi] at h
        | true =>
          simp only [hi, if_true] at h
          cases Except.ok.inj h
          rfl
  · intro env payer acc auth ta tb pt ma mb tap spid tpid nonce af fn fd c h
    simp only [createStableSwap] at h
    cases hi : createInitSwapInstruction acc auth ta tb pt tap spid nonce
        af fn fd with
    | error e => rw [hi, exceptBindErr] at h; exact absurd h (by simp)
    | ok ins =>
      simp only [hi, exceptBindOk] at h
      cases exceptBindConst _ _ _ h
      rfl

/-- Witness for the amended C1: the client loaded under `envLoad` carries
the derived authority. -/
theorem c1_witness :
    loadedClient.authority = envLoad.findProgramAddress [testPk 1] (testPk 2) :=
  c1_authority_derivation.1 envLoad (testPk 1) (testPk 2) ⟨testPk 3⟩
    loadedClient rfl

/-- C4: every account blob that decodes successfully with a false
initialization flag makes `loadStableSwap` fail with the
pool-not-initialized error and return no client; every blob whose flag is
true never produces that error. -/
theorem c4_pool_not_initialized (env : Env) (address programId : PubKey)
    (payer : Account) (data : List Nat) (d : StableSwapData)
    (hf : env.fetchAccount address = some data)
    (hd : StableSwapLayout.decode data = some d) :
    (d.isInitialized = false →
      loadStableSwap env address programId payer =
        Except.error (SwapError.poolNotInitialized "Invalid token swap state"))
    ∧ (d.isInitialized = true →
      ∀ m, loadStableSwap env address programId payer ≠
        Except.error (SwapError.poolNotInitialized m)) := by
  constructor
  · intro hi
    rw [loadStableSwap_eq]
    simp [hf, hd, hi]
  · intro hi m
    rw [loadStableSwap_eq]
    simp [hf, hd, hi]

/-- Witness for C4: loading the uninitialized blob fails with the
pool-not-initialized error. -/
theorem c4_witness :
    loadStableSwap envUninit (testPk 1) (testPk 2) ⟨testPk 3⟩ =
      Except.error (SwapError.poolNotInitialized "Invalid token swap state") :=
  (c4_pool_not_initialized envUninit (testPk 1) (testPk 2) ⟨testPk 3⟩
      uninitBlob (StableSwapLayout.readFields uninitBlob false) rfl rfl).1 rfl

/-- C5: every successful `loadStableSwap` returns the client whose fields
are exactly the decoded fixed-layout record: the six public-key fields in
their declared order and the three 8-byte little-endian unsigned-integer
fields. -/
theorem c5_loaded_fields (env : Env) (address programId : PubKey)
    (payer : Account) (data : List Nat) (d : StableSwapData)
    (hf : env.fetchAccount address = some data)
    (hd : StableSwapLayout.decode data = some d)
    (hi : d.isInitialized = true) :
    loadStableSwap env address programId payer =
      Except.ok
        { stableSwap := address
          swapProgramId := programId
          tokenProgramId := d.tokenProgramId
          poolToken := d.tokenPool
          authority := env.findProgramAddress [address] programId
          tokenAccountA := d.tokenAccountA
          tokenAccountB := d.tokenAccountB
          mintA := d.mintA
          mintB := d.mintB
          ampFactor := Numberu64.fromBuffer d.ampFactor
          feeNumerator := Numberu64.fromBuffer d.feeNumerator
          feeDenominator := Numberu64.fromBuffer d.feeDenominator
          payer := payer } := by
  rw [loadStableSwap_eq]
  simp [hf, hd, hi]

/-- Witness for C5: the fields loaded from `initBlob`. -/
theorem c5_witness :
    loadStableSwap envLoad (testPk 1) (testPk 2) ⟨testPk 3⟩ =
      Except.ok
        { stableSwap := testPk 1
          swapProgramId := testPk 2
          tokenProgramId := (StableSwapLayout.readFields initBlob true).tokenProgramId
          poolToken := (StableSwapLayout.readFields initBlob true).tokenPool
          authority := envLoad.findProgramAddress [testPk 1] (testPk 2)
          tokenAccountA := (StableSwapLayout.readFields initBlob true).tokenAccountA
          tokenAccountB := (StableSwapLayout.readFields initBlob true).tokenAccountB
          mintA := (StableSwapLayout.readFields initBlob true).mintA
          mintB := (StableSwapLayout.readFields initBlob true).mintB
          ampFactor := Numberu64.fromBuffer (StableSwapLayout.readFields initBlob true).ampFactor
          feeNumerator := Numberu64.fromBuffer (StableSwapLayout.readFields initBlob true).feeNumerator
          feeDenominator := Numberu64.fromBuffer (StableSwapLayout.readFields initBlob true).feeDenominator
          payer := ⟨testPk 3⟩ } :=
  c5_loaded_fields envLoad (testPk 1) (testPk 2) ⟨testPk 3⟩ initBlob
    (StableSwapLayout.readFields initBlob true) rfl rfl rfl

/-- Discarding bind with a constant ok continuation is a map. -/
theorem exceptBindConstMap {ε α β : Type} (x : Except ε α) (b : β) :
    (x >>= fun _ => Except.ok b) = x.map (fun _ => b) := by
  cases x <;> rfl

/-- Range characterization of `checkU64`. -/
theorem checkU64_error_iff (n : Int) :
    checkU64 n = Except.error SwapError.valueOutOfRange
      ↔ (n < 0 ∨ (2 : Int) ^ 64 ≤ n) := by
  unfold checkU64
  by_cases h : n < 0 ∨ (2 : Int) ^ 64 ≤ n
  · rw [if_pos h]
    exact iff_of_true rfl h
  · rw [if_neg h]
    constructor
    · intro hc
      exact Except.noConfusion hc
    · intro hh
      exact absurd hh h

/-- Every `checkU64` result is an ok buffer or the range error. -/
theorem checkU64_cases (n : Int) :
    (∃ b, checkU64 n = Except.ok b) ∨
      checkU64 n = Except.error SwapError.valueOutOfRange := by
  by_cases h : n < 0 ∨ (2 : Int) ^ 64 ≤ n
  · refine Or.inr ?_
    unfold checkU64
    exact if_pos h
  · refine Or.inl ⟨leBytes 8 n.toNat, ?_⟩
    unfold checkU64
    exact if_neg h

/-- C6: `createStableSwap` builds and submits exactly one transaction
holding, in order, the system create-account instruction (space = the
codec span, lamports = the rent-exemption minimum for that span, owner =
the swap program id) and the initialization instruction; the submission is
signed by the fee payer and the new pool account keypair, and on success
the client wraps the argument-supplied descriptor fields, nothing
re-fetched. -/
theorem c6_create_transaction (env : Env) (payer acc : Account)
    (auth ta tb pt ma mb tap spid tpid : PubKey) (nonce : Nat)
    (af fn fd : Int) (ba bf bd : List Nat)
    (ha : checkU64 af = Except.ok ba)
    (hb : checkU64 fn = Except.ok bf)
    (hc : checkU64 fd = Except.ok bd) :
    createStableSwap env payer acc auth ta tb pt ma mb tap spid tpid nonce
        af fn fd =
      (env.sendAndConfirmTransaction "createAccount and InitializeSwap"
          ⟨[SystemProgram.createAccount payer.publicKey acc.publicKey
              (env.getMinimumBalanceForRentExemption StableSwapLayout.span)
              StableSwapLayout.span spid,
            { keys :=
                [⟨acc.publicKey, false, true⟩, ⟨auth, false, false⟩,
                 ⟨ta, false, false⟩, ⟨tb, false, false⟩, ⟨pt, false, true⟩,
                 ⟨tap, false, true⟩, ⟨TOKEN_PROGRAM_ID, false, false⟩]
              programId := spid
              data := 0 :: (nonce % 256) :: (ba ++ bf ++ bd) }]⟩
          [payer, acc]).map
        (fun _ =>
          { stableSwap := acc.publicKey
            swapProgramId := spid
            tokenProgramId := tpid
            poolToken := pt
            authority := auth
            tokenAccountA := ta
            tokenAccountB := tb
            mintA := ma
            mintB := mb
            ampFactor := Numberu64.ofInt af
            feeNumerator := Numberu64.ofInt fn
            feeDenominator := Numberu64.ofInt fd
            payer := payer }) := by
  simp [createStableSwap, createInitSwapInstruction,
    getMinBalanceRentForExemptStableSwap, ha, hb, hc, exceptBindOk,
    exceptBindConstMap]

/-- Witness for C6: the creation transaction under `envCreate`. -/
theorem c6_witness :
    createStableSwap envCreate ⟨testPk 1⟩ ⟨testPk 2⟩ (testPk 3) (testPk 4)
        (testPk 5) (testPk 6) (testPk 7) (testPk 8) (testPk 10) (testPk 11)
        (testPk 12) 3 1 1 4 =
      (envCreate.sendAndConfirmTransaction "createAccount and InitializeSwap"
          ⟨[SystemProgram.createAccount (Account.mk (testPk 1)).publicKey
              (Account.mk (testPk 2)).publicKey
              (envCreate.getMinimumBalanceForRentExemption StableSwapLayout.span)
              StableSwapLayout.span (testPk 11),
            { keys :=
                [⟨(Account.mk (testPk 2)).publicKey, false, true⟩,
                 ⟨testPk 3, false, false⟩, ⟨testPk 4, false, false⟩,
                 ⟨testPk 5, false, false⟩, ⟨testPk 6, false, true⟩,
                 ⟨testPk 10, false, true⟩, ⟨TOKEN_PROGRAM_ID, false, false⟩]
              programId := testPk 11
              data := 0 :: (3 % 256) ::
                (leBytes 8 (Int.toNat 1) ++ leBytes 8 (Int.toNat 1) ++
                  leBytes 8 (Int.toNat 4)) }]⟩
          [⟨testPk 1⟩, ⟨testPk 2⟩]).map
        (fun _ =>
          { stableSwap := (Account.mk (testPk 2)).publicKey
            swapProgramId := testPk 11
            tokenProgramId := testPk 12
            poolToken := testPk 6
            authority := testPk 3
            tokenAccountA := testPk 4
            tokenAccountB := testPk 5
            mintA := testPk 7
            mintB := testPk 8
            ampFactor := Numberu64.ofInt 1
            feeNumerator := Numberu64.ofInt 1
            feeDenominator := Numberu64.ofInt 4
            payer := ⟨testPk 1⟩ }) :=
  c6_create_transaction envCreate ⟨testPk 1⟩ ⟨testPk 2⟩ (testPk 3) (testPk 4)
    (testPk 5) (testPk 6) (testPk 7) (testPk 8) (testPk 10) (testPk 11)
    (testPk 12) 3 1 1 4 (leBytes 8 (Int.toNat 1)) (leBytes 8 (Int.toNat 1))
    (leBytes 8 (Int.toNat 4)) rfl rfl rfl

/-- C7: a native-integer amount is rejected with the value-out-of-range
error exactly when it is negative or exceeds 2^64 - 1; in-range values are
serialized, not rejected; and an out-of-range amount in any position makes
the swap, deposit and withdraw methods fail with that error for every
environment (no transport interaction can be involved), as does the
initialization builder. -/
theorem c7_value_out_of_range :
    (∀ n : Int,
        toU64Buffer (NumOrU64.num n) = Except.error SwapError.valueOutOfRange
          ↔ (n < 0 ∨ (2 : Int) ^ 64 ≤ n))
    ∧ (∀ n : Int, 0 ≤ n → n < (2 : Int) ^ 64 →
        toU64Buffer (NumOrU64.num n) = Except.ok (leBytes 8 n.toNat))
    ∧ (∀ (self : StableSwap) (env : Env) (us ps pd ud : PubKey)
        (aIn mOut : NumOrU64),
        (toU64Buffer aIn = Except.error SwapError.valueOutOfRange ∨
         toU64Buffer mOut = Except.error SwapError.valueOutOfRange) →
        (StableSwap.swap self env us ps pd ud aIn mOut).1 =
          Except.error SwapError.valueOutOfRange)
    ∧ (∀ (self : StableSwap) (env : Env) (ua ub pa : PubKey)
        (xa xb xp : NumOrU64),
        (toU64Buffer xa = Except.error SwapError.valueOutOfRange ∨
         toU64Buffer xb = Except.error SwapError.valueOutOfRange ∨
         toU64Buffer xp = Except.error SwapError.valueOutOfRange) →
        (StableSwap.deposit self env ua ub pa xa xb xp).1 =
          Except.error SwapError.valueOutOfRange)
    ∧ (∀ (self : StableSwap) (env : Env) (ua ub pa : PubKey)
        (xp xa xb : NumOrU64),
        (toU64Buffer xp = Except.error SwapError.valueOutOfRange ∨
         toU64Buffer xa = Except.error SwapError.valueOutOfRange ∨
         toU64Buffer xb = Except.error SwapError.valueOutOfRange) →
        (StableSwap.withdraw self env ua ub pa xp xa xb).1 =
          Except.error SwapError.valueOutOfRange)
    ∧ (∀ (acc : Account) (auth ta tb tp tap spid : PubKey) (nonce : Nat)
        (af fn fd : Int),
        ((af < 0 ∨ (2 : Int) ^ 64 ≤ af) ∨ (fn < 0 ∨ (2 : Int) ^ 64 ≤ fn) ∨
         (fd < 0 ∨ (2 : Int) ^ 64 ≤ fd)) →
        createInitSwapInstruction acc auth ta tb tp tap spid nonce af fn fd =
          Except.error SwapError.valueOutOfRange) := by
  refine ⟨?_, ?_, ?_, ?_, ?_, ?_⟩
  · intro n
    show checkU64 n = _ ↔ _
    exact checkU64_error_iff n
  · intro n h1 h2
    have hn : ¬(n < 0 ∨ (2 : Int) ^ 64 ≤ n) := by
      rintro (hlt | hge)
      · exact absurd hlt (not_lt.mpr h1)
      · exact absurd h2 (not_lt.mpr hge)
    show checkU64 n = _
    unfold checkU64
    exact if_neg hn
  · intro self env us ps pd ud aIn mOut h
    rcases toU64Buffer_cases aIn with ⟨b1, h1⟩ | h1 <;>
      rcases toU64Buffer_cases mOut with ⟨b2, h2⟩ | h2 <;>
      rcases h with h | h <;>
      simp_all [StableSwap.swap, swapInstruction, exceptBindOk, exceptBindErr]
  · intro self env ua ub pa xa xb xp h
    rcases toU64Buffer_cases xa with ⟨b1, h1⟩ | h1 <;>
      rcases toU64Buffer_cases xb with ⟨b2, h2⟩ | h2 <;>
      rcases toU64Buffer_cases xp with ⟨b3, h3⟩ | h3 <;>
      rcases h with h | h | h <;>
      simp_all [StableSwap.deposit, depositInstruction, exceptBindOk,
        exceptBindErr]
  · intro self env ua ub pa xp xa xb h
    rcases toU64Buffer_cases xp with ⟨b1, h1⟩ | h1 <;>
      rcases toU64Buffer_cases xa with ⟨b2, h2⟩ | h2 <;>
      rcases toU64Buffer_cases xb with ⟨b3, h3⟩ | h3 <;>
      rcases h with h | h | h <;>
      simp_all [StableSwap.withdraw, withdrawInstruction, exceptBindOk,
        exceptBindErr]
  · intro acc auth ta tb tp tap spid nonce af fn fd h
    have h' : checkU64 af = Except.error SwapError.valueOutOfRange ∨
        checkU64 fn = Except.error SwapError.valueOutOfRange ∨
        checkU64 fd = Except.error SwapError.valueOutOfRange := by
      rcases h with h | h | h
      · exact Or.inl ((checkU64_error_iff af).mpr h)
      · exact Or.inr (Or.inl ((checkU64_error_iff fn).mpr h))
      · exact Or.inr (Or.inr ((checkU64_error_iff fd).mpr h))
    rcases checkU64_cases af with ⟨b1, h1⟩ | h1 <;>
      rcases checkU64_cases fn with ⟨b2, h2⟩ | h2 <;>
      rcases checkU64_cases fd with ⟨b3, h3⟩ | h3 <;>
      rcases h' with h' | h' | h' <;>
      simp_all [createInitSwapInstruction, exceptBindOk, exceptBindErr]

/-- Witness for C7: concrete in-range and out-of-range amounts. -/
theorem c7_witness :
    toU64Buffer (NumOrU64.num (-1)) = Except.error SwapError.valueOutOfRange
    ∧ toU64Buffer (NumOrU64.num ((2 : Int) ^ 64)) =
        Except.error SwapError.valueOutOfRange
    ∧ toU64Buffer (NumOrU64.num 5) = Except.ok (leBytes 8 (Int.toNat 5))
    ∧ (StableSwap.swap loadedClient envCreate (testPk 4) (testPk 5)
          (testPk 6) (testPk 7) (NumOrU64.num (-1)) (NumOrU64.num 0)).1 =
        Except.error SwapError.valueOutOfRange :=
  ⟨(c7_value_out_of_range.1 (-1)).mpr (Or.inl (by decide)),
   (c7_value_out_of_range.1 ((2 : Int) ^ 64)).mpr (Or.inr (le_refl _)),
   c7_value_out_of_range.2.1 5 (by decide) (by decide),
   c7_value_out_of_range.2.2.1 loadedClient envCreate (testPk 4) (testPk 5)
     (testPk 6) (testPk 7) (NumOrU64.num (-1)) (NumOrU64.num 0)
     (Or.inl ((c7_value_out_of_range.1 (-1)).mpr (Or.inl (by decide))))⟩

/-- Counterexample to C9: the failure raised by `loadStableSwap` on an
uninitialized pool is the same constant error for two different pool
addresses and program ids, so it carries neither the addresses involved
nor any operation context. -/
theorem c9_counterexample :
    loadStableSwap envUninit (testPk 1) (testPk 2) ⟨testPk 3⟩ =
      Except.error (SwapError.poolNotInitialized "Invalid token swap state")
    ∧ loadStableSwap envUninit (testPk 4) (testPk 5) ⟨testPk 3⟩ =
      Except.error (SwapError.poolNotInitialized "Invalid token swap state")
    ∧ testPk 1 ≠ testPk 4 :=
  ⟨rfl, rfl, by decide⟩

/-- C9 amended: the failure raised by `loadStableSwap` on an uninitialized
pool is the fixed error with message "Invalid token swap state",
independent of the operation's addresses, program id, payer and transport,
so it does not carry that context. -/
theorem c9_constant_error_message (env1 env2 : Env) (a1 a2 p1 p2 : PubKey)
    (y1 y2 : Account) (d1 d2 : List Nat) (s1 s2 : StableSwapData)
    (hf1 : env1.fetchAccount a1 = some d1)
    (hd1 : StableSwapLayout.decode d1 = some s1)
    (hi1 : s1.isInitialized = false)
    (hf2 : env2.fetchAccount a2 = some d2)
    (hd2 : StableSwapLayout.decode d2 = some s2)
    (hi2 : s2.isInitialized = false) :
    loadStableSwap env1 a1 p1 y1 =
      Except.error (SwapError.poolNotInitialized "Invalid token swap state")
    ∧ loadStableSwap env1 a1 p1 y1 = loadStableSwap env2 a2 p2 y2 := by
  have h1 : loadStableSwap env1 a1 p1 y1 =
      Except.error (SwapError.poolNotInitialized "Invalid token swap state") := by
    rw [loadStableSwap_eq]
    simp [hf1, hd1, hi1]
  have h2 : loadStableSwap env2 a2 p2 y2 =
      Except.error (SwapError.poolNotInitialized "Invalid token swap state") := by
    rw [loadStableSwap_eq]
    simp [hf2, hd2, hi2]
  exact ⟨h1, h1.trans h2.symm⟩

/-- Witness for the amended C9: two loads of uninitialized pools at
different addresses yield the same constant error. -/
theorem c9_witness :
    loadStableSwap envUninit (testPk 6) (testPk 2) ⟨testPk 3⟩ =
      Except.error (SwapError.poolNotInitialized "Invalid token swap state")
    ∧ loadStableSwap envUninit (testPk 6) (testPk 2) ⟨testPk 3⟩ =
      loadStableSwap envUninit (testPk 7) (testPk 8) ⟨testPk 5⟩ :=
  c9_constant_error_message envUninit envUninit (testPk 6) (testPk 7)
    (testPk 2) (testPk 8) ⟨testPk 3⟩ ⟨testPk 5⟩ uninitBlob uninitBlob
    (StableSwapLayout.readFields uninitBlob false)
    (StableSwapLayout.readFields uninitBlob false) rfl rfl rfl rfl rfl rfl

/-- C10: the tokenProgramId of a successfully loaded client equals the
token-program id field decoded from the fetched blob, and two loads whose
transports serve the same blob agree on it whatever the program id and
payer arguments are. -/
theorem c10_token_program_from_blob :
    (∀ (env : Env) (address programId : PubKey) (payer : Account)
        (data : List Nat) (d : StableSwapData) (c : StableSwap),
        env.fetchAccount address = some data →
        StableSwapLayout.decode data = some d →
        loadStableSwap env address programId payer = Except.ok c →
        c.tokenProgramId = d.tokenProgramId)
    ∧ (∀ (env1 env2 : Env) (a1 a2 p1 p2 : PubKey) (y1 y2 : Account),
        env1.fetchAccount a1 = env2.fetchAccount a2 →
        (loadStableSwap env1 a1 p1 y1).toOption.map (fun c => c.tokenProgramId)
          = (loadStableSwap env2 a2 p2 y2).toOption.map
              (fun c => c.tokenProgramId)) := by
  constructor
  · intro env address programId payer data d c h1 h2 h3
    rw [loadStableSwap_eq] at h3
    rw [h1] at h3
    simp only [h2] at h3
    cases hi : d.isInitialized with
    | false => rw [hi] at h3; simp at h3
    | true =>
      rw [hi] at h3
      simp only [if_true] at h3
      cases Except.ok.inj h3
      rfl
  · intro env1 env2 a1 a2 p1 p2 y1 y2 h
    rw [loadStableSwap_eq, loadStableSwap_eq]
    cases hf : env1.fetchAccount a1 with
    | none =>
      rw [hf] at h
      rw [← h]
    | some data =>
      rw [hf] at h
      rw [← h]
      cases hd : StableSwapLayout.decode data with
      | none => simp [hd]
      | some d =>
        cases hi : d.isInitialized <;> simp [hd, hi, Except.toOption]

/-- Witness for C10: two loads of the same blob at different addresses,
program ids and payers agree on the token-program id. -/
theorem c10_witness :
    (loadStableSwap envLoad (testPk 1) (testPk 2) ⟨testPk 3⟩).toOption.map
        (fun c => c.tokenProgramId)
      = (loadStableSwap envLoad (testPk 4) (testPk 5) ⟨testPk 6⟩).toOption.map
        (fun c => c.tokenProgramId) :=
  c10_token_program_from_blob.2 envLoad envLoad (testPk 1) (testPk 4)
    (testPk 2) (testPk 5) ⟨testPk 3⟩ ⟨testPk 6⟩ rfl
